import Mathlib

/-!
Shallow embedding of the fire-alert session aggregator of
`src/pages/LiveMonitoring.tsx` (repository dimriutkarsh/van-dash).

Numeric sensor values (temperature, smoke, humidity, coordinates) are
modelled as rationals; timestamps are modelled as integer epoch
milliseconds (the value of `new Date(ts).getTime()` in the source).
Missing or non-numeric inbound fields are modelled as `none`.
-/

set_option autoImplicit false

namespace VanDash

/-- `SensorReading` interface, LiveMonitoring.tsx lines 13-25. -/
structure SensorReading where
  id : String
  deviceId : String
  latitude : ℚ
  longitude : ℚ
  humidity : ℚ
  temp : ℚ
  smoke : ℚ
  isFire : Bool
  timestamp : Int
  name : String
  status : String
deriving Repr, DecidableEq

/-- Session status, `'active' | 'completed'` in the source. -/
inductive SessionStatus where
  | active
  | completed
deriving Repr, DecidableEq

/-- `FireAlertSession` interface, LiveMonitoring.tsx lines 27-43. -/
structure FireAlertSession where
  id : String
  deviceId : String
  startTime : Int
  endTime : Option Int
  readings : List SensorReading
  maxTemp : ℚ
  minTemp : ℚ
  avgTemp : ℚ
  maxSmoke : ℚ
  minSmoke : ℚ
  avgSmoke : ℚ
  maxHumidity : ℚ
  minHumidity : ℚ
  avgHumidity : ℚ
  status : SessionStatus
deriving Repr, DecidableEq

/-- The component state relevant to the aggregator: the short-term
reading history (`sensorReadings`, newest first), the active session
being tracked (`currentSession`), the `activeSessions` list, the
`completedSessions` archive and the `fireAlertSessions` entry of
localStorage (`storedSessions`). -/
structure MonState where
  sensorReadings : List SensorReading
  currentSession : Option FireAlertSession
  activeSessions : List FireAlertSession
  completedSessions : List FireAlertSession
  storedSessions : List FireAlertSession
deriving Repr, DecidableEq

/-- The state on mount with empty localStorage. -/
def initState : MonState :=
  { sensorReadings := []
    currentSession := none
    activeSessions := []
    completedSessions := []
    storedSessions := [] }

/-- `isDuplicateReading`, lines 116-123: a reading is a duplicate of the
short-term history when some stored reading agrees on the 4-tuple
(timestamp, temp, humidity, smoke). -/
def isDuplicateReading (newReading : SensorReading)
    (existingReadings : List SensorReading) : Bool :=
  existingReadings.any fun reading =>
    reading.timestamp == newReading.timestamp &&
    reading.temp == newReading.temp &&
    reading.humidity == newReading.humidity &&
    reading.smoke == newReading.smoke

/-- The `setSensorReadings` updater of lines 146-154: drop duplicates,
otherwise prepend and keep only the last 20 readings. -/
def addReading (newReading : SensorReading)
    (prev : List SensorReading) : List SensorReading :=
  if isDuplicateReading newReading prev then prev
  else (newReading :: prev).take 20

/-- The `newSession` object of lines 180-196: a fresh session seeded
entirely from one reading. `sid` stands for the generated
`session-${Date.now()}` identifier. -/
def mkNewSession (r : SensorReading) (sid : String) : FireAlertSession :=
  { id := sid
    deviceId := r.deviceId
    startTime := r.timestamp
    endTime := none
    readings := [r]
    maxTemp := r.temp
    minTemp := r.temp
    avgTemp := r.temp
    maxSmoke := r.smoke
    minSmoke := r.smoke
    avgSmoke := r.smoke
    maxHumidity := r.humidity
    minHumidity := r.humidity
    avgHumidity := r.humidity
    status := SessionStatus.active }

/-- The update-admission test of lines 204-213: `timeDiff > 5000 ||
significantChange`, where `last` is `currentSession.readings[0]`. -/
def shouldMerge (r last : SensorReading) : Bool :=
  let timeDiff := r.timestamp - last.timestamp
  let significantChange :=
    |r.temp - last.temp| > 1 ||
    |r.smoke - last.smoke| > 5 ||
    |r.humidity - last.humidity| > 2
  timeDiff > 5000 || significantChange

/-- The `updatedSession` construction of lines 214-229: prepend the
reading keeping only the last 50, extend the running extrema, and
recompute each average over the retained readings. -/
def mergeReading (cur : FireAlertSession) (r : SensorReading) : FireAlertSession :=
  let readings := r :: cur.readings.take 49
  { cur with
    readings := readings
    maxTemp := max cur.maxTemp r.temp
    minTemp := min cur.minTemp r.temp
    maxSmoke := max cur.maxSmoke r.smoke
    minSmoke := min cur.minSmoke r.smoke
    maxHumidity := max cur.maxHumidity r.humidity
    minHumidity := min cur.minHumidity r.humidity
    avgTemp := (readings.map (fun x => x.temp)).sum / (readings.length : ℚ)
    avgSmoke := (readings.map (fun x => x.smoke)).sum / (readings.length : ℚ)
    avgHumidity := (readings.map (fun x => x.humidity)).sum / (readings.length : ℚ) }

/-- The session-tracking effect of lines 179-256, applied to one newly
accepted reading `r` (the head of `sensorReadings`).  The empty-readings
branch mirrors the source, where `readings[0]` being absent makes both
the time test and the magnitude test evaluate to false, so the reading
fails the merge test. -/
def sessionStep (r : SensorReading) (sid : String) (s : MonState) : MonState :=
  match s.currentSession with
  | none =>
      if r.isFire then
        let ns := mkNewSession r sid
        { s with currentSession := some ns
                 activeSessions := s.activeSessions ++ [ns] }
      else s
  | some cur =>
      if r.isFire then
        match cur.readings with
        | [] => s
        | last :: _ =>
            if shouldMerge r last then
              let updated := mergeReading cur r
              { s with currentSession := some updated
                       activeSessions := s.activeSessions.map
                         (fun ses => if ses.id = updated.id then updated else ses) }
            else s
      else
        let completed := { cur with endTime := some r.timestamp
                                    status := SessionStatus.completed }
        { s with currentSession := none
                 activeSessions := s.activeSessions.filter
                   (fun ses => ses.id != completed.id)
                 completedSessions := completed :: s.completedSessions.take 9
                 storedSessions := completed :: s.storedSessions.take 9 }

/-- One polled reading processed end to end (lines 126-156 followed by
lines 159-258): duplicates are dropped before any session transition;
an accepted reading enters the capped history and then drives the
session step. -/
def processReading (r : SensorReading) (sid : String) (s : MonState) : MonState :=
  if isDuplicateReading r s.sensorReadings then s
  else
    let s1 := { s with sensorReadings := (r :: s.sensorReadings).take 20 }
    sessionStep r sid s1

/-- States reachable from the empty initial state by processing polled
readings. -/
inductive Reachable : MonState → Prop where
  | init : Reachable initState
  | step : ∀ (s : MonState) (r : SensorReading) (sid : String),
      Reachable s → Reachable (processReading r sid s)

/-! ### Inbound normalization (`convertApiToSensorData`, lines 46-67) -/

/-- An inbound API record.  `none` models a missing or non-numeric
field (JavaScript `undefined`/`null`/`NaN`). -/
structure ApiDevice where
  mongoId : Option String
  id : Option String
  deviceId : Option String
  latitude : Option ℚ
  longitude : Option ℚ
  humidity : Option ℚ
  temp : Option ℚ
  temperature : Option ℚ
  smoke : Option ℚ
  isfire : Option Bool
  isFire : Option Bool
  lastUpdate : Option Int
  timestamp : Option Int
  name : Option String
deriving Repr, DecidableEq

/-- JavaScript `x || y` on a possibly missing number: `0` and missing
values are falsy. -/
def numOr (x : Option ℚ) (y : ℚ) : ℚ :=
  match x with
  | some v => if v = 0 then y else v
  | none => y

/-- JavaScript `x || y` on a possibly missing string: the empty string
and missing values are falsy. -/
def strOr (x : Option String) (y : String) : String :=
  match x with
  | some v => if v = "" then y else v
  | none => y

/-- JavaScript `x || y` on a possibly missing timestamp. -/
def intOr (x : Option Int) (y : Int) : Int :=
  match x with
  | some v => if v = 0 then y else v
  | none => y

/-- `device._id.slice(-4)`: the last four characters (the whole string
when it is shorter). -/
def sliceLast4 (s : String) : String :=
  s.drop (s.length - 4)

/-- Lines 49-65: normalize one inbound record.  `now` stands for
`new Date().toISOString()`, the fallback timestamp. -/
def convertDevice (device : ApiDevice) (now : Int) : SensorReading :=
  let deviceId :=
    strOr device.deviceId (strOr device.id
      (match device.mongoId with
       | some m => if m = "" then "DEV-unknown" else "DEV-" ++ sliceLast4 m
       | none => "DEV-unknown"))
  let id := strOr device.mongoId (strOr device.id deviceId)
  let fire := device.isfire.getD false || device.isFire.getD false
  { id := id
    deviceId := deviceId
    latitude := numOr device.latitude 0
    longitude := numOr device.longitude 0
    humidity := numOr device.humidity 0
    temp := numOr device.temp (numOr device.temperature 0)
    smoke := numOr device.smoke 0
    isFire := fire
    timestamp := intOr device.lastUpdate (intOr device.timestamp now)
    name := strOr device.name ("Sensor " ++ deviceId)
    status := if fire then "warning" else "active" }

/-- Lines 46-67: a missing or non-array payload yields `[]`, otherwise
every record is normalized. -/
def convertApiToSensorData (apiDevices : Option (List ApiDevice)) (now : Int) :
    List SensorReading :=
  match apiDevices with
  | none => []
  | some l => l.map (fun d => convertDevice d now)

/-! ### Invariant predicates -/

/-- Well-formedness of a session as built by the aggregator: a nonempty
readings list capped at 50, running extrema bounding every retained
reading, and each average equal to the arithmetic mean over the
retained readings. -/
def sessionWF (c : FireAlertSession) : Prop :=
  c.readings ≠ [] ∧
  (∀ r ∈ c.readings,
    c.minTemp ≤ r.temp ∧ r.temp ≤ c.maxTemp ∧
    c.minSmoke ≤ r.smoke ∧ r.smoke ≤ c.maxSmoke ∧
    c.minHumidity ≤ r.humidity ∧ r.humidity ≤ c.maxHumidity) ∧
  c.avgTemp = (c.readings.map (fun x => x.temp)).sum / (c.readings.length : ℚ) ∧
  c.avgSmoke = (c.readings.map (fun x => x.smoke)).sum / (c.readings.length : ℚ) ∧
  c.avgHumidity = (c.readings.map (fun x => x.humidity)).sum / (c.readings.length : ℚ) ∧
  c.readings.length ≤ 50

/-- Well-formedness of the aggregator state: every session anywhere in
the state is well-formed, both archives are capped at 10 and the
short-term history at 20. -/
def stateWF (s : MonState) : Prop :=
  (∀ c, s.currentSession = some c → sessionWF c) ∧
  (∀ c ∈ s.activeSessions, sessionWF c) ∧
  (∀ c ∈ s.completedSessions, sessionWF c) ∧
  (∀ c ∈ s.storedSessions, sessionWF c) ∧
  s.completedSessions.length ≤ 10 ∧
  s.storedSessions.length ≤ 10 ∧
  s.sensorReadings.length ≤ 20

/-! ### Concrete fixtures used by witnesses and counterexamples -/

/-- A fire reading used as a base point for concrete scenarios. -/
def rBase : SensorReading :=
  { id := "1", deviceId := "DEV-A", latitude := 0, longitude := 0,
    humidity := 40, temp := 45, smoke := 10, isFire := true,
    timestamp := 0, name := "Sensor DEV-A", status := "warning" }

/-- The same sensor values as `rBase`, exactly 5000 ms later. -/
def rSame5000 : SensorReading :=
  { rBase with id := "2", timestamp := 5000 }

/-- A non-fire reading arriving later with different values. -/
def rClose : SensorReading :=
  { rBase with id := "3", temp := 22, isFire := false, timestamp := 20000, status := "active" }

/-- A state with one active session seeded from `rBase`. -/
def sActive1 : MonState := processReading rBase "s1" initState

/-- Scenario readings of the spec's first test scenario. -/
def c3r1 : SensorReading :=
  { rBase with id := "a", temp := 20, isFire := false, status := "active" }

/-- Second scenario reading: fire turns on at temperature 45. -/
def c3r2 : SensorReading :=
  { rBase with id := "b", temp := 45, isFire := true, timestamp := 10000 }

/-- Third scenario reading: fire continues at temperature 50, arriving
2000 ms after the second reading. -/
def c3r3 : SensorReading :=
  { rBase with id := "c", temp := 50, isFire := true, timestamp := 12000 }

/-- Fourth scenario reading: fire turns off at temperature 22. -/
def c3r4 : SensorReading :=
  { rBase with id := "d", temp := 22, isFire := false, timestamp := 20000, status := "active" }

/-- The state after processing the four scenario readings in order. -/
def c3final : MonState :=
  processReading c3r4 "s4" (processReading c3r3 "s3"
    (processReading c3r2 "s2" (processReading c3r1 "s1" initState)))

/-- An inbound record with every field missing. -/
def apiEmpty : ApiDevice :=
  { mongoId := none, id := none, deviceId := none, latitude := none,
    longitude := none, humidity := none, temp := none, temperature := none,
    smoke := none, isfire := none, isFire := none, lastUpdate := none,
    timestamp := none, name := none }

/-! ### Basic lemmas -/

/-- `isDuplicateReading` holds exactly when some stored reading agrees
with the candidate on the 4-tuple (timestamp, temp, humidity, smoke). -/
theorem isDuplicateReading_iff (r : SensorReading) (l : List SensorReading) :
    isDuplicateReading r l = true ↔
      ∃ x ∈ l, x.timestamp = r.timestamp ∧ x.temp = r.temp ∧
        x.humidity = r.humidity ∧ x.smoke = r.smoke := by
  simp [isDuplicateReading, List.any_eq_true, and_assoc]

/-- C7: a candidate that matches a stored reading on the 4-tuple
(timestamp, temp, humidity, smoke) leaves the short-term history
unchanged; any other candidate is prepended and the history is cut to
the 20 most recent entries. -/
theorem c7_history_dedup (r : SensorReading) (prev : List SensorReading) :
    ((∃ x ∈ prev, x.timestamp = r.timestamp ∧ x.temp = r.temp ∧
        x.humidity = r.humidity ∧ x.smoke = r.smoke) →
      addReading r prev = prev) ∧
    ((¬ ∃ x ∈ prev, x.timestamp = r.timestamp ∧ x.temp = r.temp ∧
        x.humidity = r.humidity ∧ x.smoke = r.smoke) →
      addReading r prev = (r :: prev).take 20 ∧
        (addReading r prev).length ≤ 20) := by
  constructor
  · intro h
    have hd : isDuplicateReading r prev = true := (isDuplicateReading_iff r prev).mpr h
    simp [addReading, hd]
  · intro h
    have hd : isDuplicateReading r prev = false := by
      cases hdup : isDuplicateReading r prev with
      | false => rfl
      | true => exact absurd ((isDuplicateReading_iff r prev).mp hdup) h
    refine ⟨by simp [addReading, hd], ?_⟩
    simp only [addReading, hd, Bool.false_eq_true, if_false]
    exact List.length_take_le 20 (r :: prev)

/-- Witness for C7 at a concrete duplicate input. -/
theorem c7_history_dedup_witness : addReading rBase [rBase] = [rBase] :=
  (c7_history_dedup rBase [rBase]).1 ⟨rBase, by simp, rfl, rfl, rfl, rfl⟩

/-- C9: normalization never rejects a record; numeric fields that are
missing or non-numeric default to zero, and a missing device identifier
falls back to the raw `id`, then to a placeholder built from the last
four characters of the internal identifier, then to `DEV-unknown`. -/
theorem c9_normalization_defaults (d : ApiDevice) (now : Int) :
    (d.latitude = none → (convertDevice d now).latitude = 0) ∧
    (d.longitude = none → (convertDevice d now).longitude = 0) ∧
    (d.humidity = none → (convertDevice d now).humidity = 0) ∧
    (d.temp = none → d.temperature = none → (convertDevice d now).temp = 0) ∧
    (d.smoke = none → (convertDevice d now).smoke = 0) ∧
    (d.deviceId = none → d.id = none →
      (∀ m, d.mongoId = some m → m ≠ "" →
        (convertDevice d now).deviceId = "DEV-" ++ sliceLast4 m) ∧
      (d.mongoId = none → (convertDevice d now).deviceId = "DEV-unknown")) ∧
    (∀ l : List ApiDevice,
      (convertApiToSensorData (some l) now).length = l.length) := by
  refine ⟨?_, ?_, ?_, ?_, ?_, ?_, ?_⟩
  · intro h; simp [convertDevice, numOr, h]
  · intro h; simp [convertDevice, numOr, h]
  · intro h; simp [convertDevice, numOr, h]
  · intro h1 h2; simp [convertDevice, numOr, h1, h2]
  · intro h; simp [convertDevice, numOr, h]
  · intro h1 h2
    constructor
    · intro m hm hne; simp [convertDevice, strOr, h1, h2, hm, hne]
    · intro hm; simp [convertDevice, strOr, h1, h2, hm]
  · intro l; simp [convertApiToSensorData]

/-- Witness for C9 at the record with every field missing. -/
theorem c9_normalization_defaults_witness :
    (convertDevice apiEmpty 7).latitude = 0 ∧
    (convertDevice apiEmpty 7).temp = 0 ∧
    (convertDevice apiEmpty 7).deviceId = "DEV-unknown" := by
  have h := c9_normalization_defaults apiEmpty 7
  exact ⟨h.1 rfl, h.2.2.2.1 rfl rfl, (h.2.2.2.2.2.1 rfl rfl).2 rfl⟩

/-! ### Mean bounds -/

/-- A list sum is at most the length times an upper bound. -/
theorem list_sum_le_length_mul (l : List ℚ) (b : ℚ) (h : ∀ x ∈ l, x ≤ b) :
    l.sum ≤ (l.length : ℚ) * b := by
  induction l with
  | nil => simp
  | cons a t ih =>
    have ha := h a (by simp)
    have ht := ih (fun x hx => h x (by simp [hx]))
    simp only [List.sum_cons, List.length_cons]
    push_cast
    linarith

/-- A list sum is at least the length times a lower bound. -/
theorem list_length_mul_le_sum (l : List ℚ) (b : ℚ) (h : ∀ x ∈ l, b ≤ x) :
    (l.length : ℚ) * b ≤ l.sum := by
  induction l with
  | nil => simp
  | cons a t ih =>
    have ha := h a (by simp)
    have ht := ih (fun x hx => h x (by simp [hx]))
    simp only [List.sum_cons, List.length_cons]
    push_cast
    linarith

/-- The mean of a nonempty list lies between any lower and upper bound
of its elements. -/
theorem mean_bounds (l : List ℚ) (lo hi : ℚ) (hne : l ≠ [])
    (h : ∀ x ∈ l, lo ≤ x ∧ x ≤ hi) :
    lo ≤ l.sum / (l.length : ℚ) ∧ l.sum / (l.length : ℚ) ≤ hi := by
  have hlen : 0 < (l.length : ℚ) := by
    exact_mod_cast List.length_pos.mpr hne
  constructor
  · rw [le_div_iff₀ hlen]
    have := list_length_mul_le_sum l lo (fun x hx => (h x hx).1)
    linarith
  · rw [div_le_iff₀ hlen]
    have := list_sum_le_length_mul l hi (fun x hx => (h x hx).2)
    linarith

/-- A well-formed session has each average between the corresponding
extrema. -/
theorem sessionWF_avg_bounds (c : FireAlertSession) (h : sessionWF c) :
    (c.minTemp ≤ c.avgTemp ∧ c.avgTemp ≤ c.maxTemp) ∧
    (c.minSmoke ≤ c.avgSmoke ∧ c.avgSmoke ≤ c.maxSmoke) ∧
    (c.minHumidity ≤ c.avgHumidity ∧ c.avgHumidity ≤ c.maxHumidity) := by
  obtain ⟨hne, hb, ht, hs, hh, -⟩ := h
  have hneT : c.readings.map (fun x => x.temp) ≠ [] := by
    simpa using hne
  have hneS : c.readings.map (fun x => x.smoke) ≠ [] := by
    simpa using hne
  have hneH : c.readings.map (fun x => x.humidity) ≠ [] := by
    simpa using hne
  have hT := mean_bounds (c.readings.map (fun x => x.temp)) c.minTemp c.maxTemp hneT
    (by intro x hx
        obtain ⟨r, hr, rfl⟩ := List.mem_map.mp hx
        exact ⟨(hb r hr).1, (hb r hr).2.1⟩)
  have hS := mean_bounds (c.readings.map (fun x => x.smoke)) c.minSmoke c.maxSmoke hneS
    (by intro x hx
        obtain ⟨r, hr, rfl⟩ := List.mem_map.mp hx
        exact ⟨(hb r hr).2.2.1, (hb r hr).2.2.2.1⟩)
  have hH := mean_bounds (c.readings.map (fun x => x.humidity)) c.minHumidity c.maxHumidity hneH
    (by intro x hx
        obtain ⟨r, hr, rfl⟩ := List.mem_map.mp hx
        exact ⟨(hb r hr).2.2.2.2.1, (hb r hr).2.2.2.2.2⟩)
  rw [ht, hs, hh]
  simp only [List.length_map] at hT hS hH
  exact ⟨hT, hS, hH⟩

/-! ### Preservation of well-formedness -/

/-- A freshly opened session is well-formed. -/
theorem sessionWF_mkNewSession (r : SensorReading) (sid : String) :
    sessionWF (mkNewSession r sid) := by
  refine ⟨by simp [mkNewSession], ?_, ?_, ?_, ?_, by simp [mkNewSession]⟩
  · intro x hx
    simp only [mkNewSession, List.mem_singleton] at hx
    subst hx
    simp [mkNewSession]
  · simp [mkNewSession]
  · simp [mkNewSession]
  · simp [mkNewSession]

/-- Merging an accepted reading preserves well-formedness. -/
theorem sessionWF_mergeReading (c : FireAlertSession) (r : SensorReading)
    (h : sessionWF c) : sessionWF (mergeReading c r) := by
  obtain ⟨hne, hb, -, -, -, hlen⟩ := h
  refine ⟨by simp [mergeReading], ?_, rfl, rfl, rfl, ?_⟩
  · intro x hx
    simp only [mergeReading, List.mem_cons] at hx
    rcases hx with rfl | hx
    · refine ⟨min_le_right _ _, le_max_right _ _, min_le_right _ _,
        le_max_right _ _, min_le_right _ _, le_max_right _ _⟩
    · have hx' : x ∈ c.readings := List.take_subset 49 c.readings hx
      obtain ⟨h1, h2, h3, h4, h5, h6⟩ := hb x hx'
      exact ⟨le_trans (min_le_left _ _) h1, le_trans h2 (le_max_left _ _),
        le_trans (min_le_left _ _) h3, le_trans h4 (le_max_left _ _),
        le_trans (min_le_left _ _) h5, le_trans h6 (le_max_left _ _)⟩
  · have := List.length_take_le 49 c.readings
    simp only [mergeReading, List.length_cons]
    omega

/-- Closing a session neither touches its readings nor its statistics,
so well-formedness is preserved. -/
theorem sessionWF_close (c : FireAlertSession) (t : Int) (h : sessionWF c) :
    sessionWF { c with endTime := some t, status := SessionStatus.completed } := by
  obtain ⟨hne, hb, ht, hs, hh, hlen⟩ := h
  exact ⟨hne, hb, ht, hs, hh, hlen⟩

/-- The session step preserves state well-formedness. -/
theorem stateWF_sessionStep (r : SensorReading) (sid : String) (s : MonState)
    (h : stateWF s) : stateWF (sessionStep r sid s) := by
  obtain ⟨hcur, hact, hcomp, hstore, hlc, hls, hlr⟩ := h
  unfold sessionStep
  cases hc : s.currentSession with
  | none =>
      cases hf : r.isFire
      case true =>
        simp only [hf, if_true]
        refine ⟨?_, ?_, hcomp, hstore, hlc, hls, hlr⟩
        · intro c hcme
          simp only [Option.some_inj] at hcme
          subst hcme
          exact sessionWF_mkNewSession r sid
        · intro c hcm
          rcases List.mem_append.mp hcm with hcm | hcm
          · exact hact c hcm
          · simp only [List.mem_singleton] at hcm
            subst hcm
            exact sessionWF_mkNewSession r sid
      case false =>
        simp only [hf, Bool.false_eq_true, if_false]
        exact ⟨hcur, hact, hcomp, hstore, hlc, hls, hlr⟩
  | some cur =>
      have hwf : sessionWF cur := hcur cur hc
      cases hf : r.isFire
      case true =>
        simp only [hf, if_true]
        cases hr : cur.readings with
        | nil => exact ⟨hcur, hact, hcomp, hstore, hlc, hls, hlr⟩
        | cons last rest =>
            cases hadm : shouldMerge r last
            case true =>
              simp only [hadm, if_true]
              refine ⟨?_, ?_, hcomp, hstore, hlc, hls, hlr⟩
              · intro c hcme
                simp only [Option.some_inj] at hcme
                subst hcme
                exact sessionWF_mergeReading cur r hwf
              · intro c hcm
                obtain ⟨y, hy, hyc⟩ := List.mem_map.mp hcm
                by_cases hid : y.id = (mergeReading cur r).id
                · simp only [hid, if_true] at hyc
                  subst hyc
                  exact sessionWF_mergeReading cur r hwf
                · simp only [hid, if_false] at hyc
                  subst hyc
                  exact hact y hy
            case false =>
              simp only [hadm, Bool.false_eq_true, if_false]
              exact ⟨hcur, hact, hcomp, hstore, hlc, hls, hlr⟩
      case false =>
        simp only [hf, Bool.false_eq_true, if_false]
        have hwfc : sessionWF { cur with endTime := some r.timestamp, status := SessionStatus.completed } :=
          sessionWF_close cur r.timestamp hwf
        refine ⟨?_, ?_, ?_, ?_, ?_, ?_, hlr⟩
        · intro c hcme
          simp at hcme
        · intro c hcm
          exact hact c (List.mem_of_mem_filter hcm)
        · intro c hcm
          rcases List.mem_cons.mp hcm with rfl | hcm
          · exact hwfc
          · exact hcomp c (List.take_subset 9 s.completedSessions hcm)
        · intro c hcm
          rcases List.mem_cons.mp hcm with rfl | hcm
          · exact hwfc
          · exact hstore c (List.take_subset 9 s.storedSessions hcm)
        · have := List.length_take_le 9 s.completedSessions
          simp only [List.length_cons]
          omega
        · have := List.length_take_le 9 s.storedSessions
          simp only [List.length_cons]
          omega

/-- Processing a polled reading preserves state well-formedness. -/
theorem stateWF_processReading (r : SensorReading) (sid : String) (s : MonState)
    (h : stateWF s) : stateWF (processReading r sid s) := by
  unfold processReading
  by_cases hd : isDuplicateReading r s.sensorReadings
  · simp only [hd, if_true]
    exact h
  · simp only [hd, Bool.false_eq_true, if_false]
    obtain ⟨hcur, hact, hcomp, hstore, hlc, hls, hlr⟩ := h
    refine stateWF_sessionStep r sid _ ⟨hcur, hact, hcomp, hstore, hlc, hls, ?_⟩
    exact List.length_take_le 20 (r :: s.sensorReadings)

/-- Every reachable state is well-formed. -/
theorem reachable_stateWF (s : MonState) (h : Reachable s) : stateWF s := by
  induction h with
  | init =>
      refine ⟨?_, ?_, ?_, ?_, ?_, ?_, ?_⟩ <;> simp [initState]
  | step s r sid _ ih => exact stateWF_processReading r sid s ih

/-! ### Claim C1: session opening -/

/-- C1: over accepted, non-duplicate readings, a new session is opened
exactly when a fire reading arrives while no session is active, and the
opened session is seeded entirely from that reading: start time is its
timestamp, the readings list is the singleton list, every min/max/avg
field equals the corresponding value of the reading, and the status is
active. -/
theorem c1_session_open (s : MonState) (r : SensorReading) (sid : String) :
    ((sessionStep r sid s).activeSessions.length = s.activeSessions.length + 1 ↔
      (r.isFire = true ∧ s.currentSession = none)) ∧
    (r.isFire = true → s.currentSession = none →
      ∃ ns, (sessionStep r sid s).currentSession = some ns ∧
        (sessionStep r sid s).activeSessions = s.activeSessions ++ [ns] ∧
        ns.startTime = r.timestamp ∧ ns.endTime = none ∧ ns.readings = [r] ∧
        ns.minTemp = r.temp ∧ ns.maxTemp = r.temp ∧ ns.avgTemp = r.temp ∧
        ns.minSmoke = r.smoke ∧ ns.maxSmoke = r.smoke ∧ ns.avgSmoke = r.smoke ∧
        ns.minHumidity = r.humidity ∧ ns.maxHumidity = r.humidity ∧
        ns.avgHumidity = r.humidity ∧ ns.status = SessionStatus.active) := by
  cases hc : s.currentSession with
  | none =>
      cases hf : r.isFire
      case true =>
        constructor
        · simp [sessionStep, hc, hf]
        · intro _ _
          refine ⟨mkNewSession r sid, ?_, ?_⟩ <;>
            simp [sessionStep, hc, hf, mkNewSession]
      case false =>
        constructor
        · simp [sessionStep, hc, hf]
        · intro hf' _
          simp at hf'
  | some cur =>
      have hlen : ¬ (sessionStep r sid s).activeSessions.length =
          s.activeSessions.length + 1 := by
        unfold sessionStep
        rw [hc]
        cases hf : r.isFire
        case true =>
          simp only [if_true]
          cases hr : cur.readings with
          | nil => simp
          | cons last rest =>
              cases hadm : shouldMerge r last
              case true => simp [hadm]
              case false => simp [hadm]
        case false =>
          simp only [Bool.false_eq_true, if_false]
          have hfl := List.length_filter_le
            (fun ses => ses.id != cur.id) s.activeSessions
          omega
      constructor
      · constructor
        · intro h
          exact absurd h hlen
        · rintro ⟨-, hnone⟩
          simp at hnone
      · intro _ hnone
        simp at hnone

/-- Witness for C1: the first fire reading opens a session seeded from
it. -/
theorem c1_session_open_witness :
    (sessionStep rBase "s1" initState).activeSessions.length =
      initState.activeSessions.length + 1 :=
  ((c1_session_open initState rBase "s1").1).mpr ⟨rfl, rfl⟩

/-! ### Claims C4, C5, C6: session statistics invariants -/

/-- C4: in every reachable state, every session (current, active,
archived or persisted) has each average between its corresponding
minimum and maximum. -/
theorem c4_avg_between_extrema (s : MonState) (h : Reachable s)
    (c : FireAlertSession)
    (hc : s.currentSession = some c ∨ c ∈ s.activeSessions ∨
      c ∈ s.completedSessions ∨ c ∈ s.storedSessions) :
    (c.minTemp ≤ c.avgTemp ∧ c.avgTemp ≤ c.maxTemp) ∧
    (c.minSmoke ≤ c.avgSmoke ∧ c.avgSmoke ≤ c.maxSmoke) ∧
    (c.minHumidity ≤ c.avgHumidity ∧ c.avgHumidity ≤ c.maxHumidity) := by
  obtain ⟨hcur, hact, hcomp, hstore, -, -, -⟩ := reachable_stateWF s h
  rcases hc with hc | hc | hc | hc
  · exact sessionWF_avg_bounds c (hcur c hc)
  · exact sessionWF_avg_bounds c (hact c hc)
  · exact sessionWF_avg_bounds c (hcomp c hc)
  · exact sessionWF_avg_bounds c (hstore c hc)

/-- Witness for C4 at the one-step reachable state `sActive1`. -/
theorem c4_avg_between_extrema_witness :
    ((mkNewSession rBase "s1").minTemp ≤ (mkNewSession rBase "s1").avgTemp ∧
      (mkNewSession rBase "s1").avgTemp ≤ (mkNewSession rBase "s1").maxTemp) ∧
    ((mkNewSession rBase "s1").minSmoke ≤ (mkNewSession rBase "s1").avgSmoke ∧
      (mkNewSession rBase "s1").avgSmoke ≤ (mkNewSession rBase "s1").maxSmoke) ∧
    ((mkNewSession rBase "s1").minHumidity ≤ (mkNewSession rBase "s1").avgHumidity ∧
      (mkNewSession rBase "s1").avgHumidity ≤ (mkNewSession rBase "s1").maxHumidity) :=
  c4_avg_between_extrema sActive1
    (Reachable.step initState rBase "s1" Reachable.init)
    (mkNewSession rBase "s1") (Or.inl rfl)

/-- C5: in every reachable state, every session carries averages equal
to the arithmetic mean of the corresponding field over exactly the
retained readings window. -/
theorem c5_avg_is_mean (s : MonState) (h : Reachable s)
    (c : FireAlertSession)
    (hc : s.currentSession = some c ∨ c ∈ s.activeSessions ∨
      c ∈ s.completedSessions ∨ c ∈ s.storedSessions) :
    c.avgTemp = (c.readings.map (fun x => x.temp)).sum / (c.readings.length : ℚ) ∧
    c.avgSmoke = (c.readings.map (fun x => x.smoke)).sum / (c.readings.length : ℚ) ∧
    c.avgHumidity = (c.readings.map (fun x => x.humidity)).sum / (c.readings.length : ℚ) := by
  obtain ⟨hcur, hact, hcomp, hstore, -, -, -⟩ := reachable_stateWF s h
  rcases hc with hc | hc | hc | hc
  · obtain ⟨-, -, ht, hs2, hh, -⟩ := hcur c hc
    exact ⟨ht, hs2, hh⟩
  · obtain ⟨-, -, ht, hs2, hh, -⟩ := hact c hc
    exact ⟨ht, hs2, hh⟩
  · obtain ⟨-, -, ht, hs2, hh, -⟩ := hcomp c hc
    exact ⟨ht, hs2, hh⟩
  · obtain ⟨-, -, ht, hs2, hh, -⟩ := hstore c hc
    exact ⟨ht, hs2, hh⟩

/-- Witness for C5 at the one-step reachable state `sActive1`. -/
theorem c5_avg_is_mean_witness :
    (mkNewSession rBase "s1").avgTemp =
      (((mkNewSession rBase "s1").readings.map (fun x => x.temp)).sum /
        ((mkNewSession rBase "s1").readings.length : ℚ)) ∧
    (mkNewSession rBase "s1").avgSmoke =
      (((mkNewSession rBase "s1").readings.map (fun x => x.smoke)).sum /
        ((mkNewSession rBase "s1").readings.length : ℚ)) ∧
    (mkNewSession rBase "s1").avgHumidity =
      (((mkNewSession rBase "s1").readings.map (fun x => x.humidity)).sum /
        ((mkNewSession rBase "s1").readings.length : ℚ)) :=
  c5_avg_is_mean sActive1
    (Reachable.step initState rBase "s1" Reachable.init)
    (mkNewSession rBase "s1") (Or.inl rfl)

/-- C6: in every reachable state, both completed-session archives hold
at most 10 entries and the readings list of every session holds at most
50 entries. -/
theorem c6_caps (s : MonState) (h : Reachable s) :
    s.completedSessions.length ≤ 10 ∧ s.storedSessions.length ≤ 10 ∧
    (∀ c, (s.currentSession = some c ∨ c ∈ s.activeSessions ∨
        c ∈ s.completedSessions ∨ c ∈ s.storedSessions) →
      c.readings.length ≤ 50) := by
  obtain ⟨hcur, hact, hcomp, hstore, hlc, hls, -⟩ := reachable_stateWF s h
  refine ⟨hlc, hls, ?_⟩
  intro c hc
  rcases hc with hc | hc | hc | hc
  · exact (hcur c hc).2.2.2.2.2
  · exact (hact c hc).2.2.2.2.2
  · exact (hcomp c hc).2.2.2.2.2
  · exact (hstore c hc).2.2.2.2.2

/-- Witness for C6 at the four-step reachable state `c3final`. -/
theorem c6_caps_witness :
    c3final.completedSessions.length ≤ 10 ∧
    c3final.storedSessions.length ≤ 10 :=
  have h := c6_caps c3final
    (Reachable.step _ c3r4 "s4" (Reachable.step _ c3r3 "s3"
      (Reachable.step _ c3r2 "s2" (Reachable.step _ c3r1 "s1" Reachable.init))))
  ⟨h.1, h.2.1⟩

/-! ### Claim C2: the update-admission throttle -/

/-- C2 counterexample: a fire reading arriving exactly 5000 ms after
the most recently merged reading, with identical values, is NOT merged
— the code requires strictly more than 5000 ms, so "at least 5000 ms"
is false at this input. -/
theorem c2_throttle_counterexample :
    rSame5000.timestamp - rBase.timestamp = 5000 ∧
    rSame5000.temp = rBase.temp ∧ rSame5000.smoke = rBase.smoke ∧
    rSame5000.humidity = rBase.humidity ∧ rSame5000.isFire = true ∧
    sActive1.currentSession = some (mkNewSession rBase "s1") ∧
    (mkNewSession rBase "s1").readings = [rBase] ∧
    sessionStep rSame5000 "s2" sActive1 = sActive1 := by
  norm_num [rSame5000, rBase, sActive1, processReading, sessionStep, initState,
    isDuplicateReading, mkNewSession, shouldMerge, mergeReading, abs]

/-- C2 (amended): while a session is active, a fire reading is merged
if and only if strictly more than 5000 ms elapsed since the most
recently merged reading, or it differs from it by more than 1 in
temperature, more than 5 in smoke, or more than 2 in humidity; a
reading failing this test leaves the whole state unchanged. -/
theorem c2_throttle (s : MonState) (cur : FireAlertSession)
    (last : SensorReading) (rest : List SensorReading)
    (r : SensorReading) (sid : String)
    (hc : s.currentSession = some cur) (hr : cur.readings = last :: rest)
    (hf : r.isFire = true) :
    ((r.timestamp - last.timestamp > 5000 ∨ |r.temp - last.temp| > 1 ∨
        |r.smoke - last.smoke| > 5 ∨ |r.humidity - last.humidity| > 2) ↔
      shouldMerge r last = true) ∧
    (shouldMerge r last = true →
      (sessionStep r sid s).currentSession = some (mergeReading cur r) ∧
      (mergeReading cur r).readings = r :: cur.readings.take 49) ∧
    (shouldMerge r last = false → sessionStep r sid s = s) := by
  refine ⟨?_, ?_, ?_⟩
  · simp only [shouldMerge, Bool.or_eq_true, decide_eq_true_eq]
    tauto
  · intro hadm
    refine ⟨?_, rfl⟩
    unfold sessionStep
    rw [hc]
    simp [hf, hr, hadm]
  · intro hadm
    unfold sessionStep
    rw [hc]
    simp [hf, hr, hadm]

/-- Witness for C2 at a concrete merged reading (temperature delta 5
exceeds the threshold 1). -/
theorem c2_throttle_witness :
    (sessionStep c3r3 "s2" sActive1).currentSession =
      some (mergeReading (mkNewSession rBase "s1") c3r3) :=
  ((c2_throttle sActive1 (mkNewSession rBase "s1") rBase [] c3r3 "s2"
    rfl rfl rfl).2.1 (by norm_num [shouldMerge, c3r3, rBase, abs])).1

/-! ### Claim C3: the four-reading scenario -/

/-- C3 counterexample: on the scenario readings the completed session
has maxTemp 50, not 45, and the middle reading (temperature 50) IS
merged, because its temperature delta of 5 exceeds the threshold 1 and
makes it a significant change. -/
theorem c3_scenario_counterexample :
    c3final.completedSessions.map (fun c => c.maxTemp) = [50] ∧
    c3final.completedSessions.map (fun c => c.maxTemp) ≠ [45] ∧
    c3final.completedSessions.map
      (fun c => c.readings.map (fun x => x.temp)) = [[50, 45]] := by
  norm_num [c3final, processReading, sessionStep, initState, isDuplicateReading,
    shouldMerge, mergeReading, mkNewSession, c3r1, c3r2, c3r3, c3r4, rBase,
    max_def, min_def, abs]

/-- C3 (amended): the scenario produces exactly one completed session;
its maxTemp is 50, its readings list holds exactly the opening reading
and the merged middle reading (newest first), and the closing reading
is not merged. -/
theorem c3_scenario :
    c3final.completedSessions.length = 1 ∧
    c3final.completedSessions.map (fun c => c.maxTemp) = [50] ∧
    c3final.completedSessions.map (fun c => c.readings) = [[c3r3, c3r2]] ∧
    c3final.currentSession = none ∧
    c3final.activeSessions = [] := by
  norm_num [c3final, processReading, sessionStep, initState, isDuplicateReading,
    shouldMerge, mergeReading, mkNewSession, c3r1, c3r2, c3r3, c3r4, rBase,
    max_def, min_def, abs]

/-! ### Claim C8: session closure -/

/-- C8 counterexample: closing a session does NOT merge the closing
reading — after the close, the completed session's readings list is
still the list from before the close, and the closing reading is not
in it. -/
theorem c8_close_counterexample :
    sActive1.currentSession = some (mkNewSession rBase "s1") ∧
    rClose.isFire = false ∧
    (sessionStep rClose "s2" sActive1).completedSessions.map
      (fun c => c.readings) = [[rBase]] ∧
    rClose ≠ rBase := by
  norm_num [rClose, rBase, sActive1, processReading, sessionStep, initState,
    isDuplicateReading, mkNewSession, shouldMerge, mergeReading, abs]

/-- C8 (amended): when a non-fire reading arrives while a session is
active, the session is closed with endTime equal to the reading's
timestamp and status completed, it is removed from the active set and
prepended to both archives capped at 10, but its readings list is left
unchanged — the closing reading is not merged. -/
theorem c8_close (s : MonState) (cur : FireAlertSession)
    (r : SensorReading) (sid : String)
    (hc : s.currentSession = some cur) (hf : r.isFire = false) :
    ∃ done, (sessionStep r sid s).currentSession = none ∧
      (sessionStep r sid s).completedSessions = done :: s.completedSessions.take 9 ∧
      (sessionStep r sid s).storedSessions = done :: s.storedSessions.take 9 ∧
      (sessionStep r sid s).activeSessions =
        s.activeSessions.filter (fun ses => ses.id != done.id) ∧
      done.endTime = some r.timestamp ∧ done.status = SessionStatus.completed ∧
      done.readings = cur.readings ∧ done.id = cur.id := by
  refine ⟨{ cur with endTime := some r.timestamp, status := SessionStatus.completed },
    ?_, ?_, ?_, ?_, rfl, rfl, rfl, rfl⟩ <;>
  · unfold sessionStep
    rw [hc]
    simp [hf]

/-- Witness for C8 at the concrete closing reading `rClose`. -/
theorem c8_close_witness :
    (sessionStep rClose "s2" sActive1).currentSession = none := by
  obtain ⟨done, h1, -⟩ := c8_close sActive1 (mkNewSession rBase "s1") rClose "s2" rfl rfl
  exact h1

/-! ### Claim C10: device identity is ignored -/

/-- C10: while a session is active, the transition taken for a reading
does not depend on the reading's deviceId: the admission test is
unchanged under any deviceId, a fire reading never opens a second
session but is merged (or throttled) into the existing one, and a
non-fire reading closes the existing session, even when the deviceId
differs from the session's. -/
theorem c10_device_agnostic (s : MonState) (cur : FireAlertSession)
    (r : SensorReading) (sid : String) (d : String)
    (hc : s.currentSession = some cur) :
    (∀ last, shouldMerge { r with deviceId := d } last = shouldMerge r last) ∧
    (r.isFire = true →
      (sessionStep { r with deviceId := d } sid s).activeSessions.length =
        s.activeSessions.length ∧
      ∃ c', (sessionStep { r with deviceId := d } sid s).currentSession = some c' ∧
        c'.id = cur.id ∧ c'.deviceId = cur.deviceId) ∧
    (r.isFire = false →
      (sessionStep { r with deviceId := d } sid s).currentSession = none ∧
      (sessionStep { r with deviceId := d } sid s).completedSessions.head?.map
        (fun c => c.id) = some cur.id) := by
  refine ⟨fun last => rfl, ?_, ?_⟩
  · intro hf
    unfold sessionStep
    rw [hc]
    set r2 := ({ r with deviceId := d } : SensorReading) with hr2
    have hf2 : r2.isFire = true := hf
    cases hr : cur.readings with
    | nil =>
        refine ⟨?_, cur, ?_, rfl, rfl⟩ <;> simp [hf, hf2, hr, hc]
    | cons last rest =>
        cases hadm : shouldMerge r2 last
        case true =>
          refine ⟨?_, mergeReading cur r2, ?_, rfl, rfl⟩ <;>
            simp [hf, hf2, hr, hadm]
        case false =>
          refine ⟨?_, cur, ?_, rfl, rfl⟩ <;> simp [hf, hf2, hr, hadm, hc]
  · intro hf
    unfold sessionStep
    rw [hc]
    set r2 := ({ r with deviceId := d } : SensorReading) with hr2
    have hf2 : r2.isFire = false := hf
    constructor <;> simp [hf, hf2]

/-- Witness for C10: a non-fire reading carrying a different deviceId
still closes the session opened for `DEV-A`. -/
theorem c10_device_agnostic_witness :
    (sessionStep { rClose with deviceId := "OTHER" } "s2" sActive1).currentSession =
      none :=
  ((c10_device_agnostic sActive1 (mkNewSession rBase "s1") rClose "s2" "OTHER"
    rfl).2.2 rfl).1

end VanDash
